import Mathlib

/-!
Verification of `src/_posts/_artifacts/linking/custom_start.c`.

The program is a freestanding C entry point:

  void call_exit(int code, int exit_syscall_num) {
      asm("mov %rsi, %rax;"
          "syscall;");
  }
  void _start() { call_exit(main(), SYS_exit); }

We embed it as a deterministic small-step machine over the three System V
AMD64 registers that matter here (%rdi, %rsi, %rax).  In the user-level
calling convention the first integer argument of `call_exit` travels in
%rdi and the second in %rsi; the kernel's syscall convention reads the
syscall number from %rax and the first syscall argument from %rdi.
`main` is opaque: its return value and the caller-saved register state it
leaves behind are parameters of the execution.
-/

namespace CustomStart

/-- The value of the platform constant `SYS_exit` from `sys/syscall.h`
on x86-64 Linux, the architecture the source targets. -/
def SYS_exit : Int := 60

/-- The registers relevant to the program: %rdi, %rsi, %rax. -/
structure RegState where
  rdi : Int
  rsi : Int
  rax : Int
deriving DecidableEq, Repr

/-- System V AMD64 call-argument placement for `call_exit(code, num)`:
the first integer argument goes to %rdi, the second to %rsi. -/
def placeArgs (code num : Int) (r : RegState) : RegState :=
  { r with rdi := code, rsi := num }

/-- The single instruction of the body of `call_exit`:
`mov %rsi, %rax` copies %rsi into %rax and touches nothing else. -/
def movRsiRax (r : RegState) : RegState :=
  { r with rax := r.rsi }

/-- What the kernel sees at a `syscall` trap: the syscall number in %rax
and the first syscall argument in %rdi. -/
structure SyscallRequest where
  num : Int
  arg1 : Int
deriving DecidableEq, Repr

/-- Reading the trap request out of the register file. -/
def trap (r : RegState) : SyscallRequest :=
  { num := r.rax, arg1 := r.rdi }

/-- The exit status the parent observes: the kernel truncates the exit
argument to its low 8 bits. -/
def exitStatus (arg : Int) : Nat := (arg % 256).toNat

/-- Program counter of the embedded machine.  `dead` is the state after
the kernel has destroyed the process; `kernelRejected` is the
theoretical state in which the kernel was handed a non-exit request. -/
inductive PC where
  | startEntry
  | afterMain
  | callExitMov
  | callExitTrap
  | dead (status : Nat)
  | kernelRejected
deriving DecidableEq, Repr

/-- Machine state: program counter plus register file. -/
structure MState where
  pc : PC
  regs : RegState
deriving DecidableEq, Repr

/-- Observable events of an execution. -/
inductive Event where
  | mainCall
  | callExitCall (code num : Int)
  | sysTrap (req : SyscallRequest)
deriving DecidableEq, Repr

/-- Detects the invocation of `main`. -/
def isMainCall : Event → Bool
  | .mainCall => true
  | _ => false

/-- Detects a trap into the kernel, i.e. a termination request. -/
def isExitRequest : Event → Bool
  | .sysTrap _ => true
  | _ => false

/-- Detects the rejected-syscall error state. -/
def isRejected : PC → Bool
  | .kernelRejected => true
  | _ => false

/-- One step of the machine.  `mainRet` is the (opaque) return value of
`main`; `rMain` is the register file `main` leaves behind, since %rdi,
%rsi and %rax are all caller-saved and `main` may clobber them.  `none`
means the state has no successor: no further instruction executes. -/
def step (mainRet : Int) (rMain : RegState) (s : MState) :
    Option (MState × Option Event) :=
  match s.pc with
  | .startEntry =>
      some (⟨.afterMain, rMain⟩, some .mainCall)
  | .afterMain =>
      some (⟨.callExitMov, placeArgs mainRet SYS_exit s.regs⟩,
            some (.callExitCall mainRet SYS_exit))
  | .callExitMov =>
      some (⟨.callExitTrap, movRsiRax s.regs⟩, none)
  | .callExitTrap =>
      let req := trap s.regs
      if req.num = SYS_exit then
        some (⟨.dead (exitStatus req.arg1), s.regs⟩, some (.sysTrap req))
      else
        some (⟨.kernelRejected, s.regs⟩, some (.sysTrap req))
  | .dead _ => none
  | .kernelRejected => none

/-- Run the machine for at most `fuel` steps, collecting the events and
the final state. -/
def exec (mainRet : Int) (rMain : RegState) : MState → Nat → List Event × MState
  | s, 0 => ([], s)
  | s, fuel+1 =>
      match step mainRet rMain s with
      | none => ([], s)
      | some (s', ev) =>
          let rest := exec mainRet rMain s' fuel
          (ev.toList ++ rest.1, rest.2)

/-- The states visited while running for at most `fuel` steps. -/
def visited (mainRet : Int) (rMain : RegState) : MState → Nat → List MState
  | s, 0 => [s]
  | s, fuel+1 =>
      match step mainRet rMain s with
      | none => [s]
      | some (s', _) => s :: visited mainRet rMain s' fuel

/-- The state in which the loader hands control to `_start`: the program
counter is at the entry symbol and the registers hold whatever the
loader left, here an arbitrary `r0`. -/
def initState (r0 : RegState) : MState := ⟨.startEntry, r0⟩

/-- Enough fuel to drive the four-instruction program to quiescence. -/
def runFuel : Nat := 5

/-- A complete execution of the program, parameterised by the value
`main` returns, the loader-provided initial registers `r0`, and the
registers `rMain` that `main` leaves behind. -/
def run (mainRet : Int) (r0 rMain : RegState) : List Event × MState :=
  exec mainRet rMain (initState r0) runFuel

/-- The exit status an outside observer can read off a machine state:
defined only once the kernel has destroyed the process. -/
def observedStatus (m : MState) : Option Nat :=
  match m.pc with
  | .dead st => some st
  | _ => none

/-- Closed form of a complete execution: the trace is exactly the call
of `main`, the call of `call_exit` with `main`'s result and `SYS_exit`,
and a single trap requesting syscall `SYS_exit` with first argument the
result of `main`; the final state is dead with the 8-bit-truncated
status. -/
theorem run_eq (v : Int) (r0 rMain : RegState) :
    run v r0 rMain =
      ([Event.mainCall, Event.callExitCall v SYS_exit,
        Event.sysTrap ⟨SYS_exit, v⟩],
       ⟨PC.dead (exitStatus v), movRsiRax (placeArgs v SYS_exit rMain)⟩) := rfl

/-- C1: for every integer value v returned by `main`, the process exit
status observed after `_start` runs equals v truncated to 8 bits
(v mod 2^8); in particular, when `main` returns 42 the observed exit
status is 42. -/
theorem exit_status_is_main_result_mod_256 (v : Int) (r0 rMain : RegState) :
    observedStatus (run v r0 rMain).2 = some ((v % 256).toNat) ∧
    observedStatus (run 42 r0 rMain).2 = some 42 :=
  ⟨rfl, rfl⟩

/-- C2: for every pair of arguments (code, num) of `call_exit`,
call-argument placement already puts the exit status `code` in %rdi,
the register the kernel reads the first syscall argument from; the body
of `call_exit` only copies %rsi (holding `num`) into %rax, leaving %rdi
and %rsi untouched; hence the trap hands the kernel syscall number
`num` with first argument `code`. -/
theorem call_exit_issues_requested_syscall (code num : Int) (r : RegState) :
    (placeArgs code num r).rdi = code ∧
    movRsiRax (placeArgs code num r) = { placeArgs code num r with rax := num } ∧
    (movRsiRax (placeArgs code num r)).rdi = code ∧
    (movRsiRax (placeArgs code num r)).rsi = num ∧
    trap (movRsiRax (placeArgs code num r)) = ⟨num, code⟩ :=
  ⟨rfl, rfl, rfl, rfl, rfl⟩

/-- C3: `_start` forwards no argc/argv/envp (the event of calling `main`
carries no payload), invokes `main` exactly once, and passes `main`'s
result together with the fixed selector `SYS_exit` to `call_exit`. -/
theorem start_calls_main_once_then_call_exit (v : Int) (r0 rMain : RegState) :
    (run v r0 rMain).1 =
      [Event.mainCall, Event.callExitCall v SYS_exit,
       Event.sysTrap ⟨SYS_exit, v⟩] ∧
    ((run v r0 rMain).1.countP isMainCall) = 1 :=
  ⟨rfl, rfl⟩

/-- C4: the termination call never returns: after the trap the machine
is in the dead state, the dead state has no successor instruction, any
further execution from it produces no event, and the trap is the last
event of the trace. -/
theorem call_exit_never_returns (v : Int) (r0 rMain : RegState)
    (st : Nat) (regs : RegState) (fuel : Nat) :
    step v rMain ⟨PC.dead st, regs⟩ = none ∧
    exec v rMain ⟨PC.dead st, regs⟩ fuel = ([], ⟨PC.dead st, regs⟩) ∧
    (run v r0 rMain).1.drop 2 = [Event.sysTrap ⟨SYS_exit, v⟩] ∧
    (run v r0 rMain).2.pc = PC.dead (exitStatus v) := by
  refine ⟨rfl, ?_, rfl, rfl⟩
  cases fuel <;> rfl

/-- C5: in every execution the invocation of `main` strictly precedes
the termination trap, the trap is the last event before process death,
the final state is the dead state, and nothing can run afterwards. -/
theorem main_precedes_termination_precedes_death (v : Int)
    (r0 rMain : RegState) :
    ∃ i j : Nat, i < j ∧ j + 1 = (run v r0 rMain).1.length ∧
      (run v r0 rMain).1[i]? = some Event.mainCall ∧
      (run v r0 rMain).1[j]? = some (Event.sysTrap ⟨SYS_exit, v⟩) ∧
      (run v r0 rMain).2.pc = PC.dead (exitStatus v) :=
  ⟨0, 2, by decide, rfl, rfl, rfl, rfl⟩

/-- C6: when `main` returns the negative value -1, the observed exit
status is the 8-bit wrapped representation 255. -/
theorem negative_return_wraps_to_255 (r0 rMain : RegState) :
    observedStatus (run (-1) r0 rMain).2 = some 255 := rfl

/-- C7: exactly one termination request is issued per execution: the
trace of every run contains exactly one trap into the kernel, and the
run ends in the dead state reached through that trap. -/
theorem exactly_one_termination_request (v : Int) (r0 rMain : RegState) :
    ((run v r0 rMain).1.countP isExitRequest) = 1 ∧
    (run v r0 rMain).2.pc = PC.dead (exitStatus v) :=
  ⟨rfl, rfl⟩

/-- C8: there is no recoverable error path: no visited state of any
execution is the rejected-syscall error state, and every execution ends
in a normal kernel-served exit with the truncated status; the model has
no exception, retry or logging events at all. -/
theorem no_error_handling_surface (v : Int) (r0 rMain : RegState) :
    ((visited v rMain (initState r0) runFuel).all
        fun s => !(isRejected s.pc)) = true ∧
    observedStatus (run v r0 rMain).2 = some (exitStatus v) :=
  ⟨rfl, rfl⟩

/-- C9: the syscall selector `_start` passes to `call_exit` is the
platform constant `SYS_exit` (value 60 in the x86-64 Linux syscall
table, as supplied by sys/syscall.h), and that same constant is what
reaches the kernel's syscall-number register at the trap. -/
theorem selector_is_platform_SYS_exit (v : Int) (r0 rMain : RegState) :
    (run v r0 rMain).1[1]? = some (Event.callExitCall v SYS_exit) ∧
    (trap (movRsiRax (placeArgs v SYS_exit rMain))).num = SYS_exit ∧
    SYS_exit = 60 :=
  ⟨rfl, rfl, rfl⟩

/-- C10: the observable behaviour depends on nothing but `main`'s return
value: for any two executions with the same `main` result but arbitrary
loader-provided registers and arbitrary register clobbering by `main`,
the event traces (hence the issued syscall's number and argument), the
final program counter and the observed exit status coincide. -/
theorem exit_depends_only_on_main_result (v : Int)
    (r0 r0' rMain rMain' : RegState) :
    (run v r0 rMain).1 = (run v r0' rMain').1 ∧
    (run v r0 rMain).2.pc = (run v r0' rMain').2.pc ∧
    observedStatus (run v r0 rMain).2 = observedStatus (run v r0' rMain').2 :=
  ⟨rfl, rfl, rfl⟩

end CustomStart
